import Mathlib

/-!
Shallow embedding of the Online Retail cleaning pipeline (`src/clean.py`) and
its standalone validation rule engine (`src/validation.py`), together with
theorems settling the frozen specification claims.

Conventions of the embedding:
* a pandas cell that may be NaN is an `Option`; `none` is NaN/NaT/NA;
* pandas/numpy library collaborators (`pd.to_datetime`, `pd.to_numeric`,
  `astype(bool)`, date truncation and period formatting) are parameters of the
  embedding (`CleanOps`, `ValOps`): the claims under study do not depend on
  their internals, only on how the repository composes them;
* timestamps are modelled as `Int`, decimal values as `Rat`;
* a pandas comparison such as `series > 0` is `false` on NaN, exactly as in
  pandas/numpy, which is the behaviour several claims hinge on;
* code that can raise (column access `df["c"]` on a missing column) lives in
  `Except String`.
-/

set_option maxRecDepth 4000

namespace OnlineRetail

/-- Python whitespace test used by `str.strip` (space, tab, newline, carriage
return, vertical tab, form feed). -/
def pyWhitespace (c : Char) : Bool :=
  c = ' ' || c = '\t' || c = '\n' || c = '\r' || c = Char.ofNat 11 || c = Char.ofNat 12

/-- Python `str.strip()` on a list of characters: drop leading and trailing
whitespace. -/
def stripChars (cs : List Char) : List Char :=
  ((cs.dropWhile pyWhitespace).reverse.dropWhile pyWhitespace).reverse

/-- Python `str.strip()`, as applied by `pandas.Series.str.strip()`. -/
def strip (s : String) : String :=
  String.mk (stripChars s.data)

/-- Pandas `astype(str)` on a possibly-NaN cell: NaN is rendered as the literal
string `"nan"`, any other value keeps its text. -/
def pyStr : Option String → String
  | none => "nan"
  | some s => s

/-- Structural prefix test on character lists (Python `str.startswith`). -/
def chars_starts_with : List Char → List Char → Bool
  | _, [] => true
  | [], _ :: _ => false
  | c :: cs, p :: ps => c == p && chars_starts_with cs ps

/-- Python `str.startswith(pat)`, the test used for the credit-note flag. -/
def py_startswith (s pat : String) : Bool :=
  chars_starts_with s.data pat.data

/-- Lexicographic comparison of character lists by code point, the order
Python `sorted` uses on strings. -/
def chars_le : List Char → List Char → Bool
  | [], _ => true
  | _ :: _, [] => false
  | a :: as, b :: bs => if a < b then true else if b < a then false else chars_le as bs

/-- Python string comparison `a <= b`. -/
def str_leb (a b : String) : Bool :=
  chars_le a.data b.data

/-- Propositional form of `str_leb`. -/
def str_le (a b : String) : Prop :=
  str_leb a b = true

instance : DecidableRel str_le := fun a b => by
  unfold str_le; infer_instance

/-- Python slice `s[:1]`: the first character as a string, `""` when empty. -/
def take1 (s : String) : String :=
  match s.data with
  | [] => ""
  | c :: _ => String.singleton c

/-- Python slice `s[-1:]`: the last character as a string, `""` when empty. -/
def last1 (s : String) : String :=
  match s.data.getLast? with
  | none => ""
  | some c => String.singleton c

/-!
## Model of `src/clean.py`
-/

/-- One row of the raw CSV (`load_raw`): every cell is opaque text or NaN. -/
structure RawRecord where
  invoice_no : Option String
  stock_code : Option String
  description : Option String
  quantity : Option String
  invoice_date : Option String
  unit_price : Option String
  customer_id : Option String
  country : Option String
deriving DecidableEq

/-- The pandas coercion collaborators used by `basic_clean`: `pd.to_datetime`
with `errors="coerce"`, `pd.to_numeric` with `errors="coerce"` (also composed
with `astype("Int64")` for `customer_id`), `.dt.date` truncation and
`.dt.to_period("M").astype(str)` formatting.  The claims do not depend on
their internals, so they are parameters of the embedding. -/
structure CleanOps where
  to_datetime : Option String → Option Int
  to_numeric : Option String → Option Rat
  to_customer_id : Option String → Option Int
  date_of : Int → Int
  ym_of : Int → String

/-- One row of the cleaned dataframe produced by `basic_clean`. -/
structure CleanRecord where
  invoice_no : Option String
  stock_code : Option String
  description : Option String
  quantity : Option Rat
  invoice_date : Option Int
  unit_price : Option Rat
  customer_id : Option Int
  country : String
  is_credit_note : Bool
  line_total : Option Rat
  invoice_date_date : Option Int
  invoice_ym : Option String
deriving DecidableEq

/-- Row-wise semantics of `basic_clean` (src/clean.py lines 16-50): coerce
dtypes, drop the row unless `invoice_date`, `stock_code` and `description` are
all non-null, trim the text fields, and add the derived fields.  `none` means
the row is dropped by the `dropna` on line 36.  Note `line_total` is the
pandas product `quantity * unit_price`, which is NaN as soon as one factor is
NaN, and `is_credit_note` is `invoice_no.astype(str).str.startswith("C")`. -/
def clean_row (ops : CleanOps) (r : RawRecord) : Option CleanRecord :=
  let d := ops.to_datetime r.invoice_date
  let q := ops.to_numeric r.quantity
  let p := ops.to_numeric r.unit_price
  if d.isSome && r.stock_code.isSome && r.description.isSome then
    some
      { invoice_no := r.invoice_no
        stock_code := r.stock_code.map strip
        description := r.description.map strip
        quantity := q
        invoice_date := d
        unit_price := p
        customer_id := ops.to_customer_id r.customer_id
        country := strip (pyStr r.country)
        is_credit_note := py_startswith (pyStr r.invoice_no) "C"
        line_total := q.bind fun qq => p.map fun pp => qq * pp
        invoice_date_date := d.map ops.date_of
        invoice_ym := d.map ops.ym_of }
  else none

/-- `basic_clean` over a whole raw frame: every transformation in the source is
a per-row pure function, and the `dropna` keeps exactly the rows on which
`clean_row` is `some`. -/
def basic_clean (ops : CleanOps) (raw : List RawRecord) : List CleanRecord :=
  raw.filterMap (clean_row ops)

/-- Pandas comparison `series > 0` on a nullable decimal: NaN compares false. -/
def cmp_gt_zero : Option Rat → Bool
  | some v => decide (0 < v)
  | none => false

/-- Pandas comparison `series <= 0` on a nullable decimal: NaN compares false. -/
def cmp_le_zero : Option Rat → Bool
  | some v => decide (v ≤ 0)
  | none => false

/-- Row mask of the sales partition (src/clean.py line 55):
`~is_credit_note & (quantity > 0) & (unit_price > 0)`. -/
def sales_mask (r : CleanRecord) : Bool :=
  !r.is_credit_note && cmp_gt_zero r.quantity && cmp_gt_zero r.unit_price

/-- Row mask of the returns partition (src/clean.py line 56):
`is_credit_note | (quantity <= 0) | (unit_price <= 0)`. -/
def returns_mask (r : CleanRecord) : Bool :=
  r.is_credit_note || cmp_le_zero r.quantity || cmp_le_zero r.unit_price

/-- `split_sales_returns` (src/clean.py lines 53-58): two boolean-mask
selections over the same cleaned frame. -/
def split_sales_returns (df : List CleanRecord) : List CleanRecord × List CleanRecord :=
  (df.filter sales_mask, df.filter returns_mask)

/-!
## Model of `build_dimensions` (src/clean.py lines 61-77)
-/

/-- Pandas `drop_duplicates()` with the default `keep="first"`: keep the first
occurrence of each value, preserving order.  `seen` accumulates the values
already emitted. -/
def dedupFirstAux {α : Type} [DecidableEq α] (seen : List α) : List α → List α
  | [] => []
  | a :: l => if a ∈ seen then dedupFirstAux seen l else a :: dedupFirstAux (a :: seen) l

/-- Pandas `drop_duplicates()` over row values. -/
def drop_duplicates {α : Type} [DecidableEq α] (l : List α) : List α :=
  dedupFirstAux [] l

/-- The `(invoice_no, invoice_date)` projection taken by `dim_invoices`. -/
def invoice_pairs (sales : List CleanRecord) : List (Option String × Option Int) :=
  sales.map fun r => (r.invoice_no, r.invoice_date)

/-- Boolean comparison used by `sort_values("invoice_date")`: order by the
`invoice_date` component only, with NaT placed last (pandas
`na_position="last"`). -/
def date_leb (a b : Option String × Option Int) : Bool :=
  match a.2, b.2 with
  | some x, some y => decide (x ≤ y)
  | some _, none => true
  | none, some _ => false
  | none, none => true

/-- Propositional form of `date_leb` for `List.insertionSort`. -/
def date_le (a b : Option String × Option Int) : Prop :=
  date_leb a b = true

instance : DecidableRel date_le := fun a b => by
  unfold date_le; infer_instance

instance : IsTotal (Option String × Option Int) date_le := by
  constructor
  intro a b
  unfold date_le date_leb
  rcases a.2 with _ | x <;> rcases b.2 with _ | y <;> simp
  exact le_total x y

instance : IsTrans (Option String × Option Int) date_le := by
  constructor
  intro a b c
  unfold date_le date_leb
  rcases a.2 with _ | x <;> rcases b.2 with _ | y <;> rcases c.2 with _ | z <;> simp
  exact le_trans

/-- Pandas `sort_values("invoice_date")` on the deduplicated invoice pairs: a
comparison sort keyed on `invoice_date` only (stable on the sizes exercised
here). -/
def sort_values_invoice_date (l : List (Option String × Option Int)) :
    List (Option String × Option Int) :=
  List.insertionSort date_le l

/-- The four artifacts produced by `build_dimensions`. -/
structure Dimensions where
  fact_sales_lines_with_customer : List CleanRecord
  dim_products : List (Option String × Option String)
  dim_customers : List (Option Int × String)
  dim_invoices : List (Option String × Option Int)

/-- `build_dimensions` (src/clean.py lines 61-77). -/
def build_dimensions (sales : List CleanRecord) : Dimensions :=
  let sales_with_cust := sales.filter fun r => r.customer_id.isSome
  { fact_sales_lines_with_customer := sales_with_cust
    dim_products := drop_duplicates (sales.map fun r => (r.stock_code, r.description))
    dim_customers := drop_duplicates (sales_with_cust.map fun r => (r.customer_id, r.country))
    dim_invoices := sort_values_invoice_date (drop_duplicates (invoice_pairs sales)) }

/-!
## Model of `src/validation.py`

The validation engine reads the two persisted CSV artifacts back as
dataframes: every cell is text or NaN.  A frame is an association list from
column name to column values plus its row count; `df["c"]` on a missing
column raises `KeyError`, modelled in `Except String`.
-/

/-- One CSV cell as read back by `pd.read_csv`: text or NaN. -/
abbrev Cell := Option String

/-- A dataframe read from a persisted artifact. -/
structure Frame where
  nrows : Nat
  cols : List (String × List Cell)
deriving DecidableEq

/-- Column names of a frame. -/
def Frame.keys (f : Frame) : List String :=
  f.cols.map Prod.fst

/-- Membership test `c in df.columns`. -/
def Frame.hasCol (f : Frame) (c : String) : Bool :=
  (f.cols.lookup c).isSome

/-- Column access `df[c]`: raises `KeyError` when the column is absent. -/
def Frame.getCol (f : Frame) (c : String) : Except String (List Cell) :=
  match f.cols.lookup c with
  | some v => Except.ok v
  | none => Except.error ("KeyError: " ++ c)

/-- Column access with a NaN-filled default, used when `pd.concat` aligns a
frame that lacks the column. -/
def Frame.getColD (f : Frame) (c : String) : List Cell :=
  (f.cols.lookup c).getD (List.replicate f.nrows none)

/-- Pandas `DataFrame.assign(name=value)` with a scalar: returns a new frame
with the column replaced in place when it exists, appended otherwise. -/
def Frame.assign (f : Frame) (name : String) (v : String) : Frame :=
  { nrows := f.nrows
    cols :=
      if f.cols.any fun p => p.1 == name then
        f.cols.map fun p => if p.1 == name then (p.1, List.replicate f.nrows (some v)) else p
      else
        f.cols ++ [(name, List.replicate f.nrows (some v))] }

/-- Pandas `pd.concat([a, b], ignore_index=True)`: the column set is the
union (outer join), keeping `a`'s column order first; a frame lacking a
column contributes NaN for its rows. -/
def concatFrames (a b : Frame) : Frame :=
  let names := a.keys ++ b.keys.filter fun c => !a.keys.contains c
  { nrows := a.nrows + b.nrows
    cols := names.map fun c => (c, a.getColD c ++ b.getColD c) }

/-- The combined frame built at src/validation.py lines 20-23:
`pd.concat([sales.assign(_source="sales"), returns.assign(_source="returns")])`. -/
def mkdf (sales returns : Frame) : Frame :=
  concatFrames (sales.assign "_source" "sales") (returns.assign "_source" "returns")

/-- The pandas collaborators used by the validation rules: `pd.to_datetime`
with `errors="raise"`, `pd.to_numeric` with `errors="coerce"`, and
`astype(bool)`.  As in the cleaning model they are parameters. -/
structure ValOps where
  to_datetime : Cell → Except String Int
  to_numeric : Cell → Option Rat
  astype_bool : Cell → Bool

/-- One row of the validation report (`results.append({...})` at
src/validation.py line 28). -/
structure CheckResult where
  check : String
  ok : Bool
  detail : String
deriving DecidableEq

/-- The `required_cols` list of src/validation.py lines 31-35, in source
order. -/
def required_cols : List String :=
  ["invoice_no", "stock_code", "description", "quantity",
   "invoice_date", "unit_price", "customer_id", "country",
   "is_credit_note", "line_total"]

/-- Python `sorted` on a list of strings: a stable comparison sort in code
point order. -/
def sortStrings (l : List String) : List String :=
  List.insertionSort str_le l

/-- Python `str` rendering of a list of strings, as produced by
`str(sorted(set(required_cols) - set(df.columns)))`. -/
def pyListStr (xs : List String) : String :=
  let q := String.singleton (Char.ofNat 39)
  "[" ++ String.intercalate ", " (xs.map fun s => q ++ s ++ q) ++ "]"

/-- The `columns_present` rule (src/validation.py lines 36-37): subset test on
the concatenated frame's columns, detail the sorted missing names. -/
def columns_present_check (df : Frame) : CheckResult :=
  { check := "columns_present"
    ok := required_cols.all fun c => df.hasCol c
    detail := pyListStr (sortStrings (required_cols.filter fun c => !df.hasCol c)) }

/-- Name of the dtype rule as written in the source. -/
def dtypes_check_name : String :=
  "dtypes_basic(invoice_date/quantity/unit_price)"

/-- Body of the `try` block of the dtype rule (src/validation.py lines 40-44):
`pd.to_datetime(df["invoice_date"], errors="raise")` raises on the first
unparsable value, then `quantity` and `unit_price` must coerce with no
residual NaN. -/
def dtypes_try (ops : ValOps) (df : Frame) : Except String Bool := do
  let dcol ← df.getCol "invoice_date"
  let _ ← dcol.mapM ops.to_datetime
  let q ← df.getCol "quantity"
  let p ← df.getCol "unit_price"
  pure ((q.all fun c => (ops.to_numeric c).isSome) && (p.all fun c => (ops.to_numeric c).isSome))

/-- `edges_spaces` (src/validation.py lines 7-10): flag a cell when the first
or the last character of its `astype(str)` rendering is the ASCII space. -/
def edge_space_flag (c : Cell) : Bool :=
  (take1 (pyStr c) == " ") || (last1 (pyStr c) == " ")

/-- `edges_spaces` row count: `((s.str[:1] == " ") | (s.str[-1:] == " ")).sum()`. -/
def edges_spaces (col : List Cell) : Nat :=
  (col.filter edge_space_flag).length

/-- Relative tolerance of `np.isclose` as called at src/validation.py line 57
(`rtol=1e-6`). -/
def rtol : Rat := mkRat 1 1000000

/-- Absolute tolerance of `np.isclose` as called at src/validation.py line 57
(`atol=1e-9`). -/
def atol : Rat := mkRat 1 1000000000

/-- Absolute value on exact rationals, as used inside `np.isclose`. -/
def rabs (x : Rat) : Rat :=
  if x < 0 then -x else x

/-- Elementwise `np.isclose(actual, desired, rtol, atol)`: false when either
side is NaN, otherwise `|a - d| <= atol + rtol * |d|`. -/
def isclose (a d : Option Rat) : Bool :=
  match a, d with
  | some x, some y => decide (rabs (x - y) ≤ atol + rtol * rabs y)
  | _, _ => false

/-- NaN-propagating product of two coerced cells (`qt * up`). -/
def mulOpt (a b : Option Rat) : Option Rat :=
  a.bind fun x => b.map fun y => x * y

/-- Positivity test `pd.to_numeric(col, errors="coerce") > 0` on one cell:
NaN compares false. -/
def pos_cell (ops : ValOps) (c : Cell) : Bool :=
  match ops.to_numeric c with
  | some v => decide (0 < v)
  | none => false

/-- `run_validation` (src/validation.py lines 13-74) after the two artifacts
have been read back: the ten rules in source order.  Only the dtype rule is
wrapped in `try/except`; every other column access is unprotected, so a
`KeyError` there aborts the run and no report is produced. -/
def run_validation (ops : ValOps) (sales returns : Frame) :
    Except String (List CheckResult) := do
  let df := mkdf sales returns
  let r1 := columns_present_check df
  let r2 :=
    match dtypes_try ops df with
    | Except.ok b => { check := dtypes_check_name, ok := b, detail := "" : CheckResult }
    | Except.error e => { check := dtypes_check_name, ok := false, detail := e : CheckResult }
  let dcol ← df.getCol "description"
  let r3 : CheckResult := { check := "trim_description", ok := edges_spaces dcol == 0, detail := "" }
  let scol ← df.getCol "stock_code"
  let r4 : CheckResult := { check := "trim_stock_code", ok := edges_spaces scol == 0, detail := "" }
  let ccol ← df.getCol "country"
  let r5 : CheckResult := { check := "trim_country", ok := edges_spaces ccol == 0, detail := "" }
  let qt ← df.getCol "quantity"
  let up ← df.getCol "unit_price"
  let lt ← df.getCol "line_total"
  let close := List.zipWith isclose (lt.map ops.to_numeric)
    (List.zipWith mulOpt (qt.map ops.to_numeric) (up.map ops.to_numeric))
  let r6 : CheckResult :=
    { check := "line_total_consistency"
      ok := close.all id
      detail := "mismatches=" ++ toString (close.countP fun b => !b) }
  let sq ← sales.getCol "quantity"
  let sp ← sales.getCol "unit_price"
  let sc ← sales.getCol "is_credit_note"
  let r7 : CheckResult := { check := "quantity_positive_in_sales", ok := sq.all (pos_cell ops), detail := "" }
  let r8 : CheckResult := { check := "unit_price_positive_in_sales", ok := sp.all (pos_cell ops), detail := "" }
  let r9 : CheckResult := { check := "no_credit_notes_in_sales", ok := sc.all fun c => !ops.astype_bool c, detail := "" }
  let r10 : CheckResult :=
    { check := "returns_nonempty_expected"
      ok := decide (0 < returns.nrows)
      detail := "returns=" ++ toString returns.nrows }
  pure [r1, r2, r3, r4, r5, r6, r7, r8, r9, r10]

/-- The two persisted artifacts the validation engine reads. -/
structure Artifacts where
  sales : Frame
  returns : Frame
deriving DecidableEq

/-- `run_validation` viewed together with the artifacts it leaves behind: the
source only ever derives new frames (`assign` and `concat` return copies) and
never writes the inputs, so the artifacts after the run are exactly the
artifacts before it. -/
def run_validation_io (ops : ValOps) (arts : Artifacts) :
    Except String (List CheckResult) × Artifacts :=
  let sales := arts.sales
  let returns := arts.returns
  (run_validation ops sales returns, { sales := sales, returns := returns })

/-!
## Concrete instantiations of the pandas collaborators and concrete inputs

These are used to evaluate the theorems on explicit data (witnesses and
counterexamples).  The parsers are simple integer-based stand-ins: the
theorems themselves hold for every choice of collaborator.
-/

/-- Decimal digit accumulator for the stand-in parser. -/
def parse_digits (acc : Nat) : List Char → Option Nat
  | [] => some acc
  | c :: cs => if c.isDigit then parse_digits (acc * 10 + (c.toNat - 48)) cs else none

/-- A simple integer parser used to instantiate the pandas coercion
collaborators on concrete data. -/
def parse_int (s : String) : Option Int :=
  match s.data with
  | [] => none
  | '-' :: rest =>
    match rest with
    | [] => none
    | _ => (parse_digits 0 rest).map fun n => -(n : Int)
  | cs => (parse_digits 0 cs).map fun n => (n : Int)

/-- A concrete `CleanOps`: integer timestamps and integer-valued decimals. -/
def opsC : CleanOps :=
  { to_datetime := fun c => c.bind parse_int
    to_numeric := fun c => c.bind fun s => (parse_int s).map fun n => (n : Rat)
    to_customer_id := fun c => c.bind parse_int
    date_of := fun d => d
    ym_of := fun d => if d < 0 then "pre-1970" else "1970-01" }

/-- A concrete `ValOps` matching `opsC`. -/
def opsV : ValOps :=
  { to_datetime := fun c =>
      match c with
      | some s =>
        match parse_int s with
        | some n => Except.ok n
        | none => Except.error ("could not parse " ++ s)
      | none => Except.error "missing date"
    to_numeric := fun c => c.bind fun s => (parse_int s).map fun n => (n : Rat)
    astype_bool := fun c => c != some "False" }

/-- A cleaned record with null `unit_price` and a non-credit invoice: the
sales mask and the returns mask are both false on it. -/
def recNullPrice : CleanRecord :=
  { invoice_no := some "536366", stock_code := some "71053", description := some "LANTERN",
    quantity := some 2, invoice_date := some 100, unit_price := none,
    customer_id := some 17850, country := "UK", is_credit_note := false,
    line_total := none, invoice_date_date := some 100, invoice_ym := some "100" }

/-- A cleaned record with null `quantity` and a non-credit invoice, used for
the C4 counterexample. -/
def recNullQty : CleanRecord :=
  { invoice_no := some "536367", stock_code := some "84406B", description := some "CUPID",
    quantity := none, invoice_date := some 100, unit_price := some 5,
    customer_id := some 13047, country := "UK", is_credit_note := false,
    line_total := none, invoice_date_date := some 100, invoice_ym := some "100" }

/-- A raw row whose quantity does not parse as a number: `basic_clean` nulls
the field and keeps the row. -/
def rawC2 : RawRecord :=
  { invoice_no := some "536365"
    stock_code := some "85123A"
    description := some "W HEART"
    quantity := some "six"
    invoice_date := some "100"
    unit_price := some "1"
    customer_id := none
    country := some "UK" }

/-- The cleaned image of `rawC2` under `opsC`: quantity and line_total are
null. -/
def recC2 : CleanRecord :=
  { invoice_no := some "536365", stock_code := some "85123A",
    description := some "W HEART",
    quantity := none, invoice_date := some 100, unit_price := some 1,
    customer_id := none, country := "UK", is_credit_note := false,
    line_total := none, invoice_date_date := some 100, invoice_ym := some "1970-01" }

/-- A raw row with the three required fields present, null quantity and null
customer id, used to witness the normalization claims. -/
def rawKeep : RawRecord :=
  { invoice_no := some "536370"
    stock_code := some "22728"
    description := some " ALARM "
    quantity := none
    invoice_date := some "200"
    unit_price := some "3"
    customer_id := none
    country := some "France" }

/-- A raw row with a negative quantity, used to witness the line_total
claim on a non-positive product. -/
def rawNeg : RawRecord :=
  { invoice_no := some "C536379"
    stock_code := some "D"
    description := some "Discount"
    quantity := some "-2"
    invoice_date := some "300"
    unit_price := some "3"
    customer_id := some "1"
    country := some "UK" }

/-- The cleaned image of `rawNeg` under `opsC`. -/
def recNeg : CleanRecord :=
  { invoice_no := some "C536379", stock_code := some "D", description := some "Discount",
    quantity := some (-2), invoice_date := some 300, unit_price := some 3,
    customer_id := some 1, country := "UK", is_credit_note := true,
    line_total := some (-6), invoice_date_date := some 300, invoice_ym := some "1970-01" }

/-- A sales record used for the InvoiceDim counterexample (invoice "B"). -/
def recInvB : CleanRecord :=
  { invoice_no := some "B", stock_code := some "X", description := some "D",
    quantity := some 1, invoice_date := some 5, unit_price := some 1,
    customer_id := none, country := "UK", is_credit_note := false,
    line_total := some 1, invoice_date_date := some 5, invoice_ym := some "5" }

/-- A sales record sharing `recInvB`'s invoice date (invoice "A"). -/
def recInvA : CleanRecord :=
  { invoice_no := some "A", stock_code := some "X", description := some "D",
    quantity := some 1, invoice_date := some 5, unit_price := some 1,
    customer_id := none, country := "UK", is_credit_note := false,
    line_total := some 1, invoice_date_date := some 5, invoice_ym := some "5" }

/-- A one-row persisted artifact holding every required column except the
ones listed in `missing`. -/
def mkArtifact (missing : List String) : Frame :=
  { nrows := 1
    cols := ([("invoice_no", [some "536365"]), ("stock_code", [some "85123A"]),
              ("description", [some "W HEART"]),
              ("quantity", [some "6"]), ("invoice_date", [some "100"]),
              ("unit_price", [some "2"]), ("customer_id", [some "17850"]),
              ("country", [some "UK"]),
              ("is_credit_note", [some "False"]), ("line_total", [some "12"])].filter
                fun p => !missing.contains p.1) }

/-- Comparison of nullable invoice numbers, ascending, null first. -/
def opt_str_leb : Option String → Option String → Bool
  | none, _ => true
  | some _, none => false
  | some x, some y => str_leb x y

/-- Modelled from the spec's words (C6), for comparison with the code: order
pairs by `invoice_date` ascending, breaking ties in `invoice_date` by
ascending `invoice_no`. -/
def spec_pair_leb (a b : Option String × Option Int) : Bool :=
  if a.2 = b.2 then opt_str_leb a.1 b.1 else date_leb a b

/-- Propositional form of `spec_pair_leb`. -/
def spec_pair_le (a b : Option String × Option Int) : Prop :=
  spec_pair_leb a b = true

instance : DecidableRel spec_pair_le := fun a b => by
  unfold spec_pair_le; infer_instance

/-- The InvoiceDim that the claim describes: unique pairs sorted by
`(invoice_date, invoice_no)`. -/
def spec_invoice_dim (sales : List CleanRecord) : List (Option String × Option Int) :=
  List.insertionSort spec_pair_le (drop_duplicates (invoice_pairs sales))

/-- Entry `i` of a successful validation report, `none` when the run aborted. -/
def report_entry (e : Except String (List CheckResult)) (i : Nat) : Option CheckResult :=
  match e with
  | Except.ok rs => rs.get? i
  | Except.error _ => none

/-!
## Helper lemmas about the split masks
-/

theorem length_filter_add_length_filter_of_complement {α : Type} (p q : α → Bool) :
    ∀ l : List α, (∀ x ∈ l, q x = !p x) →
      (l.filter p).length + (l.filter q).length = l.length
  | [], _ => rfl
  | a :: l, h => by
    have ht := length_filter_add_length_filter_of_complement p q l
      (fun x hx => h x (List.mem_cons_of_mem a hx))
    have ha := h a (List.mem_cons_self a l)
    cases hp : p a
    · have hq : q a = true := by rw [ha, hp]; rfl
      simp only [List.filter_cons, hp, hq, if_true, if_false, List.length_cons,
        Bool.false_eq_true, ite_false, ite_true]
      omega
    · have hq : q a = false := by rw [ha, hp]; rfl
      simp only [List.filter_cons, hp, hq, List.length_cons, Bool.false_eq_true,
        ite_false, ite_true]
      omega

theorem cmp_le_zero_some (v : Rat) : cmp_le_zero (some v) = !cmp_gt_zero (some v) := by
  by_cases h : (0 : ℚ) < v
  · simp [cmp_le_zero, cmp_gt_zero, h, not_le.2 h]
  · simp [cmp_le_zero, cmp_gt_zero, h, not_lt.mp h]

theorem returns_mask_eq_not_sales_mask (r : CleanRecord)
    (hq : r.quantity.isSome = true) (hp : r.unit_price.isSome = true) :
    returns_mask r = !sales_mask r := by
  rcases Option.isSome_iff_exists.mp hq with ⟨v, hv⟩
  rcases Option.isSome_iff_exists.mp hp with ⟨w, hw⟩
  simp only [returns_mask, sales_mask, hv, hw, cmp_le_zero_some]
  cases r.is_credit_note <;> cases cmp_gt_zero (some v) <;> cases cmp_gt_zero (some w) <;> rfl

theorem sales_mask_imp_not_returns_mask (r : CleanRecord) (h : sales_mask r = true) :
    returns_mask r = false := by
  have h' := h
  simp only [sales_mask, Bool.and_eq_true, Bool.not_eq_true'] at h'
  obtain ⟨⟨hc, hqv⟩, hpv⟩ := h'
  have hqs : r.quantity.isSome = true := by
    cases hq' : r.quantity with
    | none => rw [hq'] at hqv; exact absurd hqv (by simp [cmp_gt_zero])
    | some v => rfl
  have hps : r.unit_price.isSome = true := by
    cases hp' : r.unit_price with
    | none => rw [hp'] at hpv; exact absurd hpv (by simp [cmp_gt_zero])
    | some v => rfl
  rw [returns_mask_eq_not_sales_mask r hqs hps, h]
  rfl

/-!
## Claim theorems: the classifier (C1, C2, C4)
-/

/-- C1, counterexample: a classified record with null `unit_price` that is not
a credit note satisfies neither boolean mask of `split_sales_returns` (in
pandas, `NaN > 0` and `NaN <= 0` are both false), so on the singleton input
set the two output counts sum to 0, not to the input count 1.  The claimed
invariant `count(Sales) + count(Returns) = count(input)` therefore fails. -/
theorem C1_counterexample :
    (split_sales_returns [recNullPrice]).1.length
      + (split_sales_returns [recNullPrice]).2.length ≠ [recNullPrice].length := by
  with_unfolding_all decide

/-- C1 (amended): for every classified record set in which every record has
non-null `quantity` and non-null `unit_price`, the sales/returns split is a
total, disjoint partition: the output counts sum to the input count, no
record satisfies both masks, and every input record lands in one of the two
outputs.  (Disjointness also holds without the non-null hypothesis; totality
does not: see the counterexample.) -/
theorem C1_partition_amended (df : List CleanRecord)
    (h : ∀ r ∈ df, r.quantity.isSome = true ∧ r.unit_price.isSome = true) :
    (split_sales_returns df).1.length + (split_sales_returns df).2.length = df.length
    ∧ (∀ r : CleanRecord, ¬(r ∈ (split_sales_returns df).1 ∧ r ∈ (split_sales_returns df).2))
    ∧ (∀ r ∈ df, r ∈ (split_sales_returns df).1 ∨ r ∈ (split_sales_returns df).2) := by
  refine ⟨?_, ?_, ?_⟩
  · exact length_filter_add_length_filter_of_complement sales_mask returns_mask df
      (fun x hx => returns_mask_eq_not_sales_mask x (h x hx).1 (h x hx).2)
  · rintro r ⟨h1, h2⟩
    rw [split_sales_returns, List.mem_filter] at h1 h2
    have := sales_mask_imp_not_returns_mask r h1.2
    rw [this] at h2
    exact absurd h2.2 (by simp)
  · intro r hr
    have hmask := returns_mask_eq_not_sales_mask r (h r hr).1 (h r hr).2
    cases hs : sales_mask r
    · right
      rw [split_sales_returns, List.mem_filter]
      exact ⟨hr, by rw [hmask, hs]; rfl⟩
    · left
      rw [split_sales_returns, List.mem_filter]
      exact ⟨hr, hs⟩

/-- Witness for the amended C1 on a concrete two-record set with non-null
quantities and prices. -/
theorem C1_partition_amended_witness :
    (split_sales_returns [recNeg, recInvA]).1.length
      + (split_sales_returns [recNeg, recInvA]).2.length = [recNeg, recInvA].length :=
  (C1_partition_amended [recNeg, recInvA] (by with_unfolding_all decide)).1

/-- C2, code bug: a raw row whose quantity fails numeric coercion is kept by
`basic_clean` with a null `quantity` (dropna only covers `invoice_date`,
`stock_code`, `description`), and `split_sales_returns` then places the
resulting record in neither output: `NaN <= 0` is false in pandas, so the
record is not routed to Returns as the spec requires (and as the split's own
docstring, "returns (credit/negatives/invalid lines)", intends) — it is
silently dropped. -/
theorem C2_null_quantity_dropped :
    basic_clean opsC [rawC2] = [recC2]
    ∧ recC2.quantity = none
    ∧ recC2.is_credit_note = false
    ∧ split_sales_returns [recC2] = ([], []) := by
  refine ⟨by with_unfolding_all decide, rfl, rfl, by with_unfolding_all decide⟩

/-- C4, counterexample: a record with null `quantity`, positive `unit_price`
and a non-credit invoice meets neither arm of the claimed biconditional: it
is not a Return (it does not satisfy the returns mask) yet it is not
classified as a Sale either — it lands in neither output set. -/
theorem C4_counterexample :
    recNullQty.is_credit_note = false
    ∧ cmp_le_zero recNullQty.quantity = false
    ∧ cmp_le_zero recNullQty.unit_price = false
    ∧ recNullQty ∉ (split_sales_returns [recNullQty]).1
    ∧ recNullQty ∉ (split_sales_returns [recNullQty]).2 := by
  with_unfolding_all decide

/-- C4 (amended): for records with non-null `quantity` and `unit_price` the
claimed decision rule holds exactly — such a record is in the Returns output
iff `is_credit_note ∨ quantity ≤ 0 ∨ unit_price ≤ 0` and in the Sales output
iff the negation — and `is_credit_note` of every cleaned record is true iff
the invoice number rendered as text starts with the literal prefix "C".
Records with a null `quantity` or `unit_price` that do not otherwise satisfy
the returns mask fall in neither set. -/
theorem C4_classification_amended :
    (∀ (df : List CleanRecord) (r : CleanRecord) (q p : Rat),
        r ∈ df → r.quantity = some q → r.unit_price = some p →
          ((r ∈ (split_sales_returns df).2 ↔ (r.is_credit_note = true ∨ q ≤ 0 ∨ p ≤ 0))
            ∧ (r ∈ (split_sales_returns df).1 ↔ ¬(r.is_credit_note = true ∨ q ≤ 0 ∨ p ≤ 0))))
    ∧ (∀ (ops : CleanOps) (raw : List RawRecord) (rec : CleanRecord),
        rec ∈ basic_clean ops raw →
          rec.is_credit_note = py_startswith (pyStr rec.invoice_no) "C") := by
  constructor
  · intro df r q p hr hq hp
    constructor
    · rw [split_sales_returns, List.mem_filter]
      simp [hr, returns_mask, hq, hp, cmp_le_zero, or_assoc]
    · rw [split_sales_returns, List.mem_filter]
      simp [hr, sales_mask, hq, hp, cmp_gt_zero, not_or, not_le, Bool.not_eq_true', and_assoc]
  · intro ops raw rec h
    rw [basic_clean] at h
    rcases List.mem_filterMap.mp h with ⟨a, _, hcl⟩
    rw [clean_row] at hcl
    split at hcl
    · simp only [Option.some.injEq] at hcl
      subst hcl
      rfl
    · exact absurd hcl (by simp)

/-- Witness for the amended C4: the credit note `recNeg` (invoice "C536379",
quantity -2) is routed to Returns, and its credit flag agrees with the
prefix test. -/
theorem C4_classification_amended_witness :
    recNeg ∈ (split_sales_returns [recNeg]).2
    ∧ recNeg.is_credit_note = py_startswith (pyStr recNeg.invoice_no) "C" := by
  constructor
  · exact ((C4_classification_amended.1 [recNeg] recNeg (-2) 3 (List.mem_singleton.mpr rfl)
      (by with_unfolding_all decide) (by with_unfolding_all decide)).1).mpr
      (Or.inl (by with_unfolding_all decide))
  · have he : basic_clean opsC [rawNeg] = [recNeg] := by with_unfolding_all decide
    exact C4_classification_amended.2 opsC [rawNeg] recNeg
      (by rw [he]; exact List.mem_singleton.mpr rfl)

/-- Field-level description of a surviving row of `basic_clean`. -/
theorem clean_row_some_spec (ops : CleanOps) (a : RawRecord) (rec : CleanRecord)
    (h : clean_row ops a = some rec) :
    rec.invoice_date = ops.to_datetime a.invoice_date
    ∧ (ops.to_datetime a.invoice_date).isSome = true
    ∧ rec.stock_code = a.stock_code.map strip
    ∧ a.stock_code.isSome = true
    ∧ rec.description = a.description.map strip
    ∧ a.description.isSome = true
    ∧ rec.quantity = ops.to_numeric a.quantity
    ∧ rec.unit_price = ops.to_numeric a.unit_price
    ∧ rec.line_total = (ops.to_numeric a.quantity).bind
        (fun qq => (ops.to_numeric a.unit_price).map fun pp => qq * pp) := by
  rw [clean_row] at h
  split at h
  case isTrue hcond =>
    simp only [Option.some.injEq] at h
    subst h
    simp only [Bool.and_eq_true] at hcond
    exact ⟨rfl, hcond.1.1, rfl, hcond.1.2, rfl, hcond.2, rfl, rfl, rfl⟩
  case isFalse hcond => exact absurd h (by simp)

/-!
## Claim theorems: the normalizer and the derived fields (C7, C8)
-/

/-- C7: every record produced by `basic_clean` has non-null `invoice_date`,
`stock_code` and `description`; a raw row survives normalization exactly when
those three fields are present after coercion — in particular rows with null
`customer_id`, `quantity` or `unit_price` are retained, because the survival
condition does not mention those fields — and every surviving row reaches the
output. -/
theorem C7_normalization_invariant (ops : CleanOps) (raw : List RawRecord) :
    (∀ rec ∈ basic_clean ops raw,
        rec.invoice_date.isSome = true ∧ rec.stock_code.isSome = true
          ∧ rec.description.isSome = true)
    ∧ (∀ r ∈ raw, ((clean_row ops r).isSome = true ↔
        ((ops.to_datetime r.invoice_date).isSome = true ∧ r.stock_code.isSome = true
          ∧ r.description.isSome = true)))
    ∧ (∀ r ∈ raw, ∀ rec, clean_row ops r = some rec → rec ∈ basic_clean ops raw) := by
  refine ⟨?_, ?_, ?_⟩
  · intro rec hrec
    rcases List.mem_filterMap.mp hrec with ⟨a, _, hcl⟩
    obtain ⟨hde, hds, hse, hss, hdese, hdess, _⟩ := clean_row_some_spec ops a rec hcl
    refine ⟨?_, ?_, ?_⟩
    · rw [hde]; exact hds
    · rw [hse]; simp [hss]
    · rw [hdese]; simp [hdess]
  · intro r _
    constructor
    · intro h
      cases hcl : clean_row ops r with
      | none => rw [hcl] at h; exact absurd h (by simp)
      | some rec =>
        obtain ⟨_, hds, _, hss, _, hdess, _⟩ := clean_row_some_spec ops r rec hcl
        exact ⟨hds, hss, hdess⟩
    · rintro ⟨h1, h2, h3⟩
      rw [clean_row]
      simp [h1, h2, h3]
  · intro r hr rec hcl
    exact List.mem_filterMap.mpr ⟨r, hr, hcl⟩

/-- Witness for C7: a raw row with null quantity and null customer id but all
three required fields present survives normalization. -/
theorem C7_normalization_invariant_witness :
    (clean_row opsC rawKeep).isSome = true
    ∧ rawKeep.quantity = none ∧ rawKeep.customer_id = none := by
  refine ⟨?_, rfl, rfl⟩
  exact ((C7_normalization_invariant opsC [rawKeep]).2.1 rawKeep
    (List.mem_singleton.mpr rfl)).mpr
    ⟨by with_unfolding_all decide, rfl, rfl⟩

/-- C8: for every record produced by `basic_clean`, `line_total` is the
NaN-propagating product of its own `quantity` and `unit_price`: it is null
exactly when one factor is null, and equals `quantity * unit_price` whenever
both are present — including non-positive products; the computation is a
total function and never fails. -/
theorem C8_line_total (ops : CleanOps) (raw : List RawRecord) :
    ∀ rec ∈ basic_clean ops raw,
      rec.line_total = rec.quantity.bind (fun q => rec.unit_price.map fun p => q * p)
      ∧ ((rec.quantity = none ∨ rec.unit_price = none) → rec.line_total = none)
      ∧ (∀ q p : Rat, rec.quantity = some q → rec.unit_price = some p →
          rec.line_total = some (q * p)) := by
  intro rec hrec
  rcases List.mem_filterMap.mp hrec with ⟨a, _, hcl⟩
  obtain ⟨_, _, _, _, _, _, hq, hp, hlt⟩ := clean_row_some_spec ops a rec hcl
  have hmain : rec.line_total = rec.quantity.bind fun q => rec.unit_price.map fun p => q * p := by
    rw [hlt, hq, hp]
  refine ⟨hmain, ?_, ?_⟩
  · rintro (h | h) <;> simp [hmain, h]
  · intro q p hq2 hp2
    simp [hmain, hq2, hp2]

/-- Witness for C8 on the credit-note row with quantity -2 and unit price 3:
the line total is the non-positive product -6. -/
theorem C8_line_total_witness :
    recNeg.line_total = some ((-2 : Rat) * 3) ∧ recNeg.quantity = some (-2) := by
  have he : basic_clean opsC [rawNeg] = [recNeg] := by with_unfolding_all decide
  refine ⟨?_, by with_unfolding_all decide⟩
  exact (C8_line_total opsC [rawNeg] recNeg (by rw [he]; exact List.mem_singleton.mpr rfl)).2.2
    (-2) 3 (by with_unfolding_all decide) (by with_unfolding_all decide)

/-!
## Claim theorems: InvoiceDim (C6)
-/

theorem mem_dedupFirstAux {α : Type} [DecidableEq α] (x : α) :
    ∀ (l seen : List α), x ∈ dedupFirstAux seen l ↔ (x ∈ l ∧ x ∉ seen)
  | [], seen => by simp [dedupFirstAux]
  | a :: l, seen => by
    rw [dedupFirstAux]
    by_cases h : a ∈ seen
    · rw [if_pos h, mem_dedupFirstAux x l seen]
      constructor
      · rintro ⟨h1, h2⟩
        exact ⟨List.mem_cons_of_mem a h1, h2⟩
      · rintro ⟨h1, h2⟩
        rcases List.mem_cons.mp h1 with h3 | h3
        · subst h3; exact absurd h h2
        · exact ⟨h3, h2⟩
    · rw [if_neg h, List.mem_cons, mem_dedupFirstAux x l (a :: seen)]
      constructor
      · rintro (h1 | ⟨h1, h2⟩)
        · subst h1; exact ⟨List.mem_cons_self x l, h⟩
        · exact ⟨List.mem_cons_of_mem a h1, fun hx => h2 (List.mem_cons_of_mem a hx)⟩
      · rintro ⟨h1, h2⟩
        rcases List.mem_cons.mp h1 with h3 | h3
        · exact Or.inl h3
        · by_cases hxa : x = a
          · exact Or.inl hxa
          · exact Or.inr ⟨h3, fun hx => (List.mem_cons.mp hx).elim hxa h2⟩

theorem nodup_dedupFirstAux {α : Type} [DecidableEq α] :
    ∀ (l seen : List α), (dedupFirstAux seen l).Nodup
  | [], _ => List.nodup_nil
  | a :: l, seen => by
    rw [dedupFirstAux]
    by_cases h : a ∈ seen
    · rw [if_pos h]
      exact nodup_dedupFirstAux l seen
    · rw [if_neg h, List.nodup_cons]
      refine ⟨?_, nodup_dedupFirstAux l (a :: seen)⟩
      intro hmem
      exact ((mem_dedupFirstAux a l (a :: seen)).mp hmem).2 (List.mem_cons_self a seen)

/-- C6, counterexample: two sales rows share the invoice date 5 and carry
invoice numbers "B" then "A".  The code sorts the deduplicated pairs by
`invoice_date` only, so the tie keeps first-occurrence order ("B" before
"A"), while the claimed `(invoice_date, invoice_no)` ordering demands "A"
before "B". -/
theorem C6_counterexample :
    (build_dimensions [recInvB, recInvA]).dim_invoices
        = [(some "B", some 5), (some "A", some 5)]
    ∧ spec_invoice_dim [recInvB, recInvA] = [(some "A", some 5), (some "B", some 5)]
    ∧ (build_dimensions [recInvB, recInvA]).dim_invoices
        ≠ spec_invoice_dim [recInvB, recInvA] := by
  refine ⟨by with_unfolding_all decide, by with_unfolding_all decide,
    by with_unfolding_all decide⟩

/-- C6 (amended): for every Sales input, InvoiceDim consists of exactly the
distinct `(invoice_no, invoice_date)` pairs of the input (each exactly once),
sorted ascending by `invoice_date`; ties in `invoice_date` are not
additionally ordered by `invoice_no`. -/
theorem C6_invoice_dim_amended (sales : List CleanRecord) :
    List.Sorted date_le ((build_dimensions sales).dim_invoices)
    ∧ List.Perm ((build_dimensions sales).dim_invoices)
        (drop_duplicates (invoice_pairs sales))
    ∧ ((build_dimensions sales).dim_invoices).Nodup
    ∧ (∀ p, p ∈ (build_dimensions sales).dim_invoices ↔ p ∈ invoice_pairs sales) := by
  have hdef : (build_dimensions sales).dim_invoices
      = List.insertionSort date_le (drop_duplicates (invoice_pairs sales)) := rfl
  have hperm : List.Perm ((build_dimensions sales).dim_invoices)
      (drop_duplicates (invoice_pairs sales)) := by
    rw [hdef]; exact List.perm_insertionSort date_le _
  refine ⟨?_, hperm, ?_, ?_⟩
  · rw [hdef]
    exact List.sorted_insertionSort date_le _
  · exact hperm.nodup_iff.mpr (nodup_dedupFirstAux _ _)
  · intro p
    rw [hperm.mem_iff, drop_duplicates, mem_dedupFirstAux p _ []]
    simp

/-!
## Helper lemmas about frames and column lookup
-/

theorem lookup_isSome_iff {β : Type} (c : String) :
    ∀ l : List (String × β), ((l.lookup c).isSome = true) ↔ c ∈ l.map Prod.fst
  | [] => by simp [List.lookup]
  | (k, v) :: es => by
    rw [List.lookup]
    cases hkc : c == k
    · simp only [List.map_cons, List.mem_cons]
      rw [lookup_isSome_iff c es]
      constructor
      · exact fun h => Or.inr h
      · rintro (h | h)
        · subst h
          simp at hkc
        · exact h
    · simp only [Option.isSome_some, List.map_cons, List.mem_cons, true_iff]
      exact Or.inl (beq_iff_eq.mp hkc)

theorem hasCol_iff_mem_keys (f : Frame) (c : String) :
    f.hasCol c = true ↔ c ∈ f.keys := by
  rw [Frame.hasCol, Frame.keys]
  exact lookup_isSome_iff c f.cols

theorem getCol_eq_error (f : Frame) (c : String) (h : f.hasCol c = false) :
    f.getCol c = Except.error ("KeyError: " ++ c) := by
  rw [Frame.hasCol] at h
  rw [Frame.getCol]
  cases hl : f.cols.lookup c with
  | none => rfl
  | some v => rw [hl] at h; exact absurd h (by simp)

theorem mem_keys_assign (f : Frame) (n v c : String) :
    c ∈ (f.assign n v).keys ↔ (c ∈ f.keys ∨ c = n) := by
  rw [Frame.assign, Frame.keys]
  by_cases h : f.cols.any fun p => p.1 == n
  · rw [if_pos h]
    have hn : n ∈ f.keys := by
      rcases List.any_eq_true.mp h with ⟨p, hp, hpe⟩
      rw [Frame.keys]
      exact (beq_iff_eq.mp hpe) ▸ List.mem_map_of_mem Prod.fst hp
    have hmap : (f.cols.map fun p =>
        if p.1 == n then (p.1, List.replicate f.nrows (some v)) else p).map Prod.fst
          = f.cols.map Prod.fst := by
      rw [List.map_map]
      refine List.map_congr_left ?_
      intro p _
      show (if p.1 == n then (p.1, List.replicate f.nrows (some v)) else p).1 = p.1
      split <;> rfl
    rw [hmap]
    constructor
    · exact fun hc => Or.inl hc
    · rintro (hc | hc)
      · exact hc
      · rw [Frame.keys] at hn; exact hc ▸ hn
  · rw [if_neg h, List.map_append]
    simp only [List.map_cons, List.map_nil, List.mem_append, List.mem_singleton]
    rw [Frame.keys]

theorem mem_keys_concat (a b : Frame) (c : String) :
    c ∈ (concatFrames a b).keys ↔ (c ∈ a.keys ∨ c ∈ b.keys) := by
  rw [concatFrames, Frame.keys]
  have hmap : ∀ (names : List String),
      (names.map fun n => (n, a.getColD n ++ b.getColD n)).map Prod.fst = names := by
    intro names
    have hcomp : (Prod.fst ∘ fun n : String => (n, a.getColD n ++ b.getColD n)) = id := rfl
    rw [List.map_map, hcomp, List.map_id]
  rw [hmap]
  simp only [List.mem_append, List.mem_filter, Bool.not_eq_true']
  constructor
  · rintro (h | h)
    · exact Or.inl h
    · exact Or.inr h.1
  · rintro (h | h)
    · exact Or.inl h
    · by_cases ha : c ∈ a.keys
      · exact Or.inl ha
      · refine Or.inr ⟨h, ?_⟩
        rw [← Bool.not_eq_true]
        intro hc
        rw [List.contains, List.elem_iff] at hc
        exact ha hc

theorem hasCol_mkdf (sales returns : Frame) (c : String) :
    (mkdf sales returns).hasCol c = true ↔
      (sales.hasCol c = true ∨ returns.hasCol c = true ∨ c = "_source") := by
  rw [mkdf, hasCol_iff_mem_keys, mem_keys_concat, mem_keys_assign, mem_keys_assign,
    ← hasCol_iff_mem_keys, ← hasCol_iff_mem_keys]
  tauto

/-!
## Claim theorems: columns_present (C5)
-/

/-- C5, counterexample: with a Sales artifact lacking the `country` column and
a Returns artifact that has it, `pd.concat` aligns on the union of columns,
so `country` is present in the combined frame and `columns_present` reports
`ok=true` with an empty missing list — not `ok=false` with `["country"]` as
claimed.  The last conjunct shows the same result through the whole engine
run. -/
theorem C5_counterexample :
    Frame.hasCol (mkArtifact ["country"]) "country" = false
    ∧ Frame.hasCol (mkArtifact []) "country" = true
    ∧ columns_present_check (mkdf (mkArtifact ["country"]) (mkArtifact []))
        = { check := "columns_present", ok := true, detail := "[]" }
    ∧ report_entry (run_validation opsV (mkArtifact ["country"]) (mkArtifact [])) 0
        = some { check := "columns_present", ok := true, detail := "[]" } := by
  refine ⟨by with_unfolding_all decide, by with_unfolding_all decide,
    by with_unfolding_all decide, by with_unfolding_all decide⟩

/-- C5 (amended): `columns_present` tests the union of the two artifacts'
columns, so it reports a canonical column as missing only when the column is
absent from both artifacts; when Sales and Returns both lack `country` (and
the other nine required columns are present), it returns `ok=false` with
detail `['country']`. -/
theorem C5_columns_present_amended (sales returns : Frame)
    (h1 : (mkdf sales returns).hasCol "invoice_no" = true)
    (h2 : (mkdf sales returns).hasCol "stock_code" = true)
    (h3 : (mkdf sales returns).hasCol "description" = true)
    (h4 : (mkdf sales returns).hasCol "quantity" = true)
    (h5 : (mkdf sales returns).hasCol "invoice_date" = true)
    (h6 : (mkdf sales returns).hasCol "unit_price" = true)
    (h7 : (mkdf sales returns).hasCol "customer_id" = true)
    (h8 : (mkdf sales returns).hasCol "is_credit_note" = true)
    (h9 : (mkdf sales returns).hasCol "line_total" = true)
    (hcs : sales.hasCol "country" = false)
    (hcr : returns.hasCol "country" = false) :
    columns_present_check (mkdf sales returns)
      = { check := "columns_present", ok := false, detail := pyListStr ["country"] } := by
  have hc : (mkdf sales returns).hasCol "country" = false := by
    rw [← Bool.not_eq_true]
    rw [hasCol_mkdf]
    rintro (h | h | h)
    · rw [hcs] at h; exact absurd h (by simp)
    · rw [hcr] at h; exact absurd h (by simp)
    · exact absurd h (by decide)
  rw [columns_present_check, required_cols]
  simp only [List.all_cons, List.all_nil, List.filter_cons, List.filter_nil,
    h1, h2, h3, h4, h5, h6, h7, h8, h9, hc, Bool.not_true, Bool.not_false,
    Bool.and_true, Bool.and_false, Bool.true_and, Bool.false_and,
    Bool.false_eq_true, ite_false, ite_true]
  rfl

/-- Witness for the amended C5: both one-row artifacts lack `country`, and
the rule reports exactly `['country']`. -/
theorem C5_columns_present_amended_witness :
    columns_present_check (mkdf (mkArtifact ["country"]) (mkArtifact ["country"]))
      = { check := "columns_present", ok := false, detail := pyListStr ["country"] } := by
  apply C5_columns_present_amended <;> with_unfolding_all decide

/-!
## Claim theorems: per-rule failure isolation (C3)
-/

theorem except_bind_ok {ε α β : Type} (a : α) (f : α → Except ε β) :
    (Except.ok a : Except ε α) >>= f = f a := rfl

theorem except_bind_error {ε α β : Type} (e : ε) (f : α → Except ε β) :
    (Except.error e : Except ε α) >>= f = Except.error e := rfl

/-- C3, counterexample: when both artifacts lack the `description` column,
`columns_present` duly computes, but the unprotected access
`df["description"]` in the `trim_description` rule raises `KeyError` and the
whole run aborts: no `CheckResult` sequence is produced at all, so the
claimed per-rule isolation does not hold for rules other than
`dtypes_basic`. -/
theorem C3_counterexample :
    run_validation opsV (mkArtifact ["description"]) (mkArtifact ["description"])
      = Except.error ("KeyError: " ++ "description") := by
  with_unfolding_all rfl

/-- C3 (amended): only the `dtypes_basic` rule runs inside a failure
boundary.  When `invoice_date` is absent from both artifacts (so computing
the dtype rule raises `KeyError`) but the columns touched by the other rules
are present, the run completes: it returns all ten `CheckResult`s in order,
with the dtype entry recorded as `ok=false` and the exception text as its
detail.  An exception in any other rule instead aborts the run (see the
counterexample). -/
theorem C3_isolation_amended (ops : ValOps) (sales returns : Frame)
    (dcol scol ccol qcol pcol lcol sq sp sc : List Cell)
    (hdate : Frame.hasCol (mkdf sales returns) "invoice_date" = false)
    (hd : Frame.getCol (mkdf sales returns) "description" = Except.ok dcol)
    (hs : Frame.getCol (mkdf sales returns) "stock_code" = Except.ok scol)
    (hc : Frame.getCol (mkdf sales returns) "country" = Except.ok ccol)
    (hq : Frame.getCol (mkdf sales returns) "quantity" = Except.ok qcol)
    (hp : Frame.getCol (mkdf sales returns) "unit_price" = Except.ok pcol)
    (hl : Frame.getCol (mkdf sales returns) "line_total" = Except.ok lcol)
    (hsq : Frame.getCol sales "quantity" = Except.ok sq)
    (hsp : Frame.getCol sales "unit_price" = Except.ok sp)
    (hsc : Frame.getCol sales "is_credit_note" = Except.ok sc) :
    ∃ rs, run_validation ops sales returns = Except.ok rs
      ∧ rs.length = 10
      ∧ rs.get? 1 = some ⟨dtypes_check_name, false, "KeyError: " ++ "invoice_date"⟩
      ∧ rs.map CheckResult.check =
          ["columns_present", dtypes_check_name, "trim_description", "trim_stock_code",
           "trim_country", "line_total_consistency", "quantity_positive_in_sales",
           "unit_price_positive_in_sales", "no_credit_notes_in_sales",
           "returns_nonempty_expected"] := by
  have hdate' : Frame.getCol (mkdf sales returns) "invoice_date"
      = Except.error ("KeyError: " ++ "invoice_date") :=
    getCol_eq_error _ _ hdate
  simp only [run_validation, dtypes_try, hdate', hd, hs, hc, hq, hp, hl, hsq, hsp, hsc,
    except_bind_ok, except_bind_error]
  exact ⟨_, rfl, rfl, rfl, rfl⟩

/-- Witness for the amended C3: one-row artifacts with every column except
`invoice_date`; the run completes with ten entries and the dtype rule
recorded as failed. -/
theorem C3_isolation_amended_witness :
    ∃ rs, run_validation opsV (mkArtifact ["invoice_date"]) (mkArtifact ["invoice_date"])
        = Except.ok rs
      ∧ rs.length = 10
      ∧ rs.get? 1 = some ⟨dtypes_check_name, false, "KeyError: " ++ "invoice_date"⟩
      ∧ rs.map CheckResult.check =
          ["columns_present", dtypes_check_name, "trim_description", "trim_stock_code",
           "trim_country", "line_total_consistency", "quantity_positive_in_sales",
           "unit_price_positive_in_sales", "no_credit_notes_in_sales",
           "returns_nonempty_expected"] := by
  exact C3_isolation_amended opsV (mkArtifact ["invoice_date"]) (mkArtifact ["invoice_date"])
    [some "W HEART", some "W HEART"] [some "85123A", some "85123A"]
    [some "UK", some "UK"] [some "6", some "6"] [some "2", some "2"]
    [some "12", some "12"] [some "6"] [some "2"] [some "False"]
    (by with_unfolding_all decide)
    (by with_unfolding_all rfl) (by with_unfolding_all rfl) (by with_unfolding_all rfl)
    (by with_unfolding_all rfl) (by with_unfolding_all rfl) (by with_unfolding_all rfl)
    (by with_unfolding_all rfl) (by with_unfolding_all rfl) (by with_unfolding_all rfl)

/-!
## Claim theorems: ValidationEngine determinism and purity (C9)
-/

/-- C9: the validation run is a pure function of the two persisted artifacts:
the artifacts after a run are exactly the artifacts before it (the source
only derives new frames via `assign`/`concat` and never writes its inputs),
and a second run on the artifacts left by the first produces the identical
`CheckResult` sequence (or the identical abort), for every choice of pandas
collaborators and artifacts. -/
theorem C9_validation_pure (ops : ValOps) (arts : Artifacts) :
    (run_validation_io ops arts).2 = arts
    ∧ (run_validation_io ops ((run_validation_io ops arts).2)).1
        = (run_validation_io ops arts).1 := by
  exact ⟨rfl, rfl⟩

/-!
## Claim theorems: the trim rules flag only ASCII-space edges (C10)
-/

theorem singleton_beq_space (ch : Char) :
    (String.singleton ch == " ") = true ↔ ch = ' ' := by
  rw [beq_iff_eq]
  constructor
  · intro h
    have hd : String.data (String.singleton ch) = String.data " " := by rw [h]
    simpa [String.singleton] using hd
  · rintro rfl
    rfl

theorem take1_beq_space (s : String) :
    (take1 s == " ") = true ↔ s.data.head? = some ' ' := by
  rw [take1]
  cases hd : s.data with
  | nil => simp
  | cons a rest =>
    rw [singleton_beq_space]
    simp

theorem last1_beq_space (s : String) :
    (last1 s == " ") = true ↔ s.data.getLast? = some ' ' := by
  rw [last1]
  cases hg : s.data.getLast? with
  | none => simp
  | some ch =>
    rw [singleton_beq_space]
    simp

/-- C10: `edges_spaces` flags a cell exactly when the `astype(str)` rendering
has the ASCII space `" "` as its first or last character: a NaN cell (which
renders as `"nan"`) passes, and a value whose edges are tab or newline (or
any non-space whitespace) passes as trimmed; a trim rule is `ok` exactly when
no cell of the column is flagged. -/
theorem C10_edges_spaces :
    (∀ c : Cell, edge_space_flag c = true ↔
        ((pyStr c).data.head? = some ' ' ∨ (pyStr c).data.getLast? = some ' '))
    ∧ edge_space_flag none = false
    ∧ edge_space_flag (some "\tW HEART\n") = false
    ∧ edge_space_flag (some " W HEART") = true
    ∧ (∀ col : List Cell, edges_spaces col = 0 ↔ ∀ c ∈ col, edge_space_flag c = false) := by
  refine ⟨?_, by decide, by decide, by decide, ?_⟩
  · intro c
    rw [edge_space_flag, Bool.or_eq_true, take1_beq_space, last1_beq_space]
  · intro col
    rw [edges_spaces, List.length_eq_zero, List.filter_eq_nil_iff]
    constructor
    · intro h c hc
      rw [← Bool.not_eq_true]
      exact h c hc
    · intro h c hc
      rw [Bool.not_eq_true]
      exact h c hc

/-- Witness for the amended C6 at a concrete two-row Sales input. -/
theorem C6_invoice_dim_amended_witness :
    List.Sorted date_le ((build_dimensions [recInvB, recInvA]).dim_invoices) :=
  (C6_invoice_dim_amended [recInvB, recInvA]).1

/-- Witness for C9 at a concrete collaborator and concrete artifacts. -/
theorem C9_validation_pure_witness :
    (run_validation_io opsV { sales := mkArtifact [], returns := mkArtifact [] }).2
      = { sales := mkArtifact [], returns := mkArtifact [] } :=
  (C9_validation_pure opsV { sales := mkArtifact [], returns := mkArtifact [] }).1

/-- Witness for C10 at a concrete column: a NaN cell and a tab/newline-edged
cell are both unflagged, so the column counts zero space-edged values. -/
theorem C10_edges_spaces_witness :
    edges_spaces [none, some "\tW HEART\n"] = 0 :=
  (C10_edges_spaces.2.2.2.2 [none, some "\tW HEART\n"]).mpr (by decide)

end OnlineRetail
